import Mathlib

/-!
Shallow embedding of the real-time background-video-segmentation client
(src/client/components/RecordingStudio.tsx and
src/client/components/PerformanceDashboard.tsx).

JavaScript numbers are modelled as exact rationals (ℚ), byte counts and
counters as ℕ, epoch milliseconds as ℤ.  Stateful React code is modelled by
explicit state passing: each event handler becomes a function from its inputs
and the current state to the next state.  External collaborators (the
WebSocket object, the camera, JSON.parse, Date) appear as explicit parameters.
-/

namespace RTBVS

/-! ## JavaScript numeric primitives -/

/-- JS Math.round: rounds half toward positive infinity. -/
def jsRound (x : ℚ) : ℤ := ⌊x + 1 / 2⌋

/-- JS Array.prototype.slice with a negative start index: slice(-n) keeps the
last n elements (all of them when the array is shorter). -/
def sliceLast (n : ℕ) (l : List α) : List α := l.drop (l.length - n)

/-! ## PerformanceDashboard.tsx -/

/-- One telemetry sample, mirroring the PerformanceData interface. -/
structure PerformanceData where
  fps : ℚ
  latency : ℚ
  cpuUsage : ℚ
  memoryUsage : ℚ
  frameDrops : ℚ
  networkLatency : ℚ
  processingTime : ℚ
  timestamp : ℚ
deriving DecidableEq

/-- Average of the field f over a window, as computed by
recent.reduce((sum, d) => sum + f d, 0) / recent.length. -/
def avgOf (f : PerformanceData → ℚ) (recent : List PerformanceData) : ℚ :=
  (recent.map f).sum / recent.length

/-- fps sub-score: Math.min(avgFps / 30, 1) * 25. -/
def fpsScore (recent : List PerformanceData) : ℚ :=
  min (avgOf PerformanceData.fps recent / 30) 1 * 25

/-- latency sub-score: Math.max(0, 1 - avgLatency / 100) * 25. -/
def latencyScore (recent : List PerformanceData) : ℚ :=
  max 0 (1 - avgOf PerformanceData.latency recent / 100) * 25

/-- cpu sub-score: Math.max(0, 1 - avgCpu / 100) * 25. -/
def cpuScore (recent : List PerformanceData) : ℚ :=
  max 0 (1 - avgOf PerformanceData.cpuUsage recent / 100) * 25

/-- stability sub-score: the source hard-codes 25. -/
def stabilityScore : ℚ := 25

/-- getPerformanceScore from PerformanceDashboard.tsx: returns 0 on an empty
window, otherwise Math.round of the sum of the four sub-scores over the last
10 samples. -/
def getPerformanceScore (data : List PerformanceData) : ℤ :=
  if data.length = 0 then 0
  else
    jsRound (fpsScore (sliceLast 10 data) + latencyScore (sliceLast 10 data) +
      cpuScore (sliceLast 10 data) + stabilityScore)

/-- Result record of getPerformanceGrade (grade plus the two CSS classes). -/
structure GradeInfo where
  grade : String
  color : String
  bg : String
deriving DecidableEq

/-- getPerformanceGrade from PerformanceDashboard.tsx. -/
def getPerformanceGrade (score : ℤ) : GradeInfo :=
  if score ≥ 90 then ⟨"A+", "text-green-400", "bg-green-500/20"⟩
  else if score ≥ 80 then ⟨"A", "text-green-400", "bg-green-500/20"⟩
  else if score ≥ 70 then ⟨"B", "text-yellow-400", "bg-yellow-500/20"⟩
  else if score ≥ 60 then ⟨"C", "text-orange-400", "bg-orange-500/20"⟩
  else ⟨"D", "text-red-400", "bg-red-500/20"⟩

/-- A window of ten ideal samples: fps 30, latency 0, cpu 0. -/
def perfectSample : PerformanceData := ⟨30, 0, 0, 0, 0, 0, 0, 0⟩

/-- A sample with a (physically meaningless) negative latency; JS numbers do
not exclude it and the dashboard code never validates its inputs. -/
def badSample : PerformanceData := ⟨0, -10000, 0, 0, 0, 0, 0, 0⟩

/-! ## formatFileSize (RecordingStudio.tsx lines 103-109)

The source computes
  i = Math.floor(Math.log(bytes) / Math.log(1024))
  parseFloat((bytes / Math.pow(1024, i)).toFixed(2)) + ' ' + sizes[i].
Under exact real arithmetic Math.floor(Math.log b / Math.log 1024) is the
base-1024 integer logarithm, i.e. Nat.log 1024 b.  toFixed(2) rounds
bytes / 1024^i to the nearest multiple of 1/100 (ties away from zero, which
for positive input is ties up), and parseFloat turns the fixed string back
into the number mantissa/100, dropping trailing zeros when later printed. -/

/-- The unit names from the source; index 4 and beyond would be the JS value
undefined. -/
def sizeUnits : List String := ["Bytes", "KB", "MB", "GB"]

/-- Math.floor(Math.log(bytes) / Math.log(1024)) under exact arithmetic. -/
def sizeExp (bytes : ℕ) : ℕ := Nat.log 1024 bytes

/-- The integer n such that (bytes / 1024^i).toFixed(2) prints n/100:
n = floor(100 * bytes / 1024^i + 1/2), written with one natural division. -/
def sizeMantissaAt (i bytes : ℕ) : ℕ :=
  (200 * bytes + 1024 ^ i) / (2 * 1024 ^ i)

/-- The rounded mantissa at the exponent the source computes. -/
def sizeMantissa (bytes : ℕ) : ℕ := sizeMantissaAt (sizeExp bytes) bytes

/-- How JS prints the number n/100 after parseFloat: trailing zeros of the
two-decimal form are dropped ("1.00" prints as "1", "2.50" as "2.5"). -/
def renderJsNum (n : ℕ) : String :=
  if n % 100 = 0 then toString (n / 100)
  else if n % 10 = 0 then toString (n / 100) ++ "." ++ toString (n / 10 % 10)
  else toString (n / 100) ++ "." ++ toString (n / 10 % 10) ++ toString (n % 10)

/-- formatFileSize from RecordingStudio.tsx. -/
def formatFileSize (bytes : ℕ) : String :=
  if bytes = 0 then "0 Bytes"
  else renderJsNum (sizeMantissaAt (sizeExp bytes) bytes) ++ " " ++
    (sizeUnits.getD (sizeExp bytes) "undefined")

/-- The byte value represented by the formatted string: its numeric prefix
(sizeMantissa bytes / 100, exactly what renderJsNum prints) scaled by the
base-1024 unit chosen by sizeExp.  For bytes = 0 the formula itself yields 0,
matching the string "0 Bytes". -/
def sizeValue (bytes : ℕ) : ℚ :=
  (sizeMantissa bytes : ℚ) / 100 * 1024 ^ sizeExp bytes

/-! ## Connection manager (RecordingStudio.tsx lines 1619-1676)

connectWebSocket, the onclose reconnection logic, and the readyState guard.
The addLog calls (activity-feed presentation) touch only the log list and are
modelled where a claim mentions them (see wsOnMessage below). -/

/-- The four WebSocket readyState constants. -/
inductive WSReadyState where
  | CONNECTING
  | OPEN
  | CLOSING
  | CLOSED
deriving DecidableEq

/-- The connectionState record of the component. -/
structure ConnectionState where
  isConnected : Bool
  isConnecting : Bool
  reconnectCount : ℕ
  serverVersion : String
  serverLoad : ℚ
deriving DecidableEq

/-- Result of one connectWebSocket call: whether a new WebSocket object was
constructed (and stored into wsRef), and the connection state afterwards. -/
structure ConnectResult where
  created : Bool
  state : ConnectionState
deriving DecidableEq

/-- connectWebSocket: returns immediately when wsRef.current?.readyState ===
WebSocket.OPEN (wsCur is the readyState of the current socket, none when
wsRef.current is null); otherwise sets isConnecting and constructs a new
WebSocket. -/
def connectWebSocket (wsCur : Option WSReadyState) (cs : ConnectionState) :
    ConnectResult :=
  if wsCur = some WSReadyState.OPEN then ⟨false, cs⟩
  else ⟨true, { cs with isConnecting := true }⟩

/-- Result of the ws.onclose handler: the connection state afterwards and the
list of reconnect timers it scheduled (each entry is the delay in ms). -/
structure CloseResult where
  state : ConnectionState
  scheduledDelays : List ℕ
deriving DecidableEq

/-- The WebSocket object together with the environment its handlers closed
over: ws.onclose reads streamState.isStreaming from the render that produced
the connectWebSocket instance which created this socket (the useCallback deps
at line 1676 refresh the callback, but the handlers installed on an existing
socket keep their original closure).  React state updates never mutate the
consts of earlier renders, so the handler consults this captured value, not
the flag committed when the close event fires. -/
structure SocketHandle where
  capturedStreaming : Bool
deriving DecidableEq

/-- ws.onclose: always clears isConnected/isConnecting; when the streaming
flag captured by the socket's closure is true it schedules exactly one
setTimeout of 3000 ms (whose callback is reconnectTimerFire below followed by
connectWebSocket). -/
def wsOnClose (sock : SocketHandle) (cs : ConnectionState) : CloseResult :=
  let cs1 := { cs with isConnected := false, isConnecting := false }
  if sock.capturedStreaming then ⟨cs1, [3000]⟩ else ⟨cs1, []⟩

/-- A close event paired with the session's committed streaming flag at the
moment it fires: liveStreaming is the value the spec's temporal statement
refers to, socket carries the value the handler actually reads. -/
structure CloseScene where
  liveStreaming : Bool
  socket : SocketHandle
deriving DecidableEq

/-- The body of the reconnect setTimeout callback: increments reconnectCount
(it then invokes connectWebSocket, modelled separately). -/
def reconnectTimerFire (cs : ConnectionState) : ConnectionState :=
  { cs with reconnectCount := cs.reconnectCount + 1 }

/-- A concrete connection state that is mid-connect: the WebSocket exists and
is still in readyState CONNECTING. -/
def csConnecting : ConnectionState := ⟨false, true, 0, "v3.2.0", 0⟩

/-- A concrete connected state just before a close event. -/
def csLive : ConnectionState := ⟨true, false, 0, "v3.2.0", 0⟩

/-- The canonical start trace: startCamera issues
setStreamState(isStreaming: true) at line 1815 and then synchronously calls
(line 1828) the connectWebSocket instance memoized in the same render — a
render in which isStreaming was still false, the state update committing only
after the handler's synchronous code.  The socket's onclose therefore
captured false, although the session is streaming (live flag true) when the
connection later drops abruptly. -/
def startThenDropScene : CloseScene := ⟨true, ⟨false⟩⟩

/-- The reconnect-button trace: clicking Reconnect Engine (line 2576) while
streaming calls the current render's connectWebSocket, whose closure has
isStreaming = true; stopCamera later sets the flag false and closes this very
socket, firing its onclose with captured true. -/
def stopAfterReconnectScene : CloseScene := ⟨false, ⟨true⟩⟩

/-! ## Inbound message dispatch (RecordingStudio.tsx lines 1638-1645 and
1678-1721) -/

/-- The performanceMetrics record of the component. -/
structure PerformanceMetrics where
  cpuUsage : ℚ
  memoryUsage : ℚ
  networkLatency : ℚ
  frameDrops : ℚ
  totalFrames : ℚ
  uptime : ℚ
deriving DecidableEq

/-- A partial metrics object carried by a performance_update message; the
spread {...prev, ...data.metrics} overrides exactly the fields present. -/
structure MetricsPatch where
  cpuUsage : Option ℚ
  memoryUsage : Option ℚ
  networkLatency : Option ℚ
  frameDrops : Option ℚ
  totalFrames : Option ℚ
  uptime : Option ℚ
deriving DecidableEq

/-- The JS object spread {...prev, ...patch}. -/
def applyPatch (p : MetricsPatch) (m : PerformanceMetrics) : PerformanceMetrics :=
  { cpuUsage := p.cpuUsage.getD m.cpuUsage
    memoryUsage := p.memoryUsage.getD m.memoryUsage
    networkLatency := p.networkLatency.getD m.networkLatency
    frameDrops := p.frameDrops.getD m.frameDrops
    totalFrames := p.totalFrames.getD m.totalFrames
    uptime := p.uptime.getD m.uptime }

/-- A successfully parsed inbound message, tagged by data.type.  processedFrame
carries the optional data.data image payload and optional data.timestamp;
other covers any JSON whose type tag matches no switch case (the switch then
does nothing). -/
inductive InboundMessage where
  | processedFrame (payload : Option String) (timestamp : Option ℤ)
  | backgroundChanged (background : String)
  | error (message : String)
  | performanceUpdate (metrics : MetricsPatch)
  | other
deriving DecidableEq

/-- The slice of component state the message handler can read or write:
streamState.isStreaming, the processingRef in-flight gate, the
sessionStats.processedFrames counter, streamState.latency, whether
canvasRef.current is non-null, the performance metrics and the activity log. -/
structure StudioState where
  isStreaming : Bool
  processing : Bool
  processedFrames : ℕ
  latency : ℤ
  canvasPresent : Bool
  performanceMetrics : PerformanceMetrics
  logs : List String
deriving DecidableEq

/-- The emoji table of addLog. -/
def logEmoji (category : String) : String :=
  if category = "info" then "💡"
  else if category = "error" then "🚫"
  else if category = "success" then "✨"
  else "⚡"

/-- addLog: keeps the last 7 entries (prev.slice(-7)) and appends the new
timestamped line; ts stands for new Date().toLocaleTimeString(). -/
def addLog (ts : String) (logs : List String) (message : String)
    (category : String) : List String :=
  logs.drop (logs.length - 7) ++ [ts ++ " " ++ logEmoji category ++ " " ++ message]

/-- addLog acting on the studio state. -/
def addLogS (ts : String) (s : StudioState) (message : String)
    (category : String) : StudioState :=
  { s with logs := addLog ts s.logs message category }

/-- handleWebSocketMessage: dispatch on the message tag.  For processed_frame
the guard is canvasRef.current && data.data; the img.onload completion (which
draws the image, clears the in-flight gate, increments processedFrames and,
when a timestamp is present, sets latency = now - timestamp) is inlined as the
synchronous effect of the message.  now is Date.now() at decode completion. -/
def handleWebSocketMessage (now : ℤ) (ts : String) (msg : InboundMessage)
    (s : StudioState) : StudioState :=
  match msg with
  | .processedFrame payload tstamp =>
      if s.canvasPresent then
        match payload with
        | some _ =>
            let s1 := { s with processing := false,
                               processedFrames := s.processedFrames + 1 }
            match tstamp with
            | some t => { s1 with latency := now - t }
            | none => s1
        | none => s
      else s
  | .backgroundChanged bg =>
      addLogS ts s ("Background switched to: " ++ bg) "success"
  | .error m =>
      addLogS ts s ("Engine Error: " ++ m) "error"
  | .performanceUpdate p =>
      { s with performanceMetrics := applyPatch p s.performanceMetrics }
  | .other => s

/-- ws.onmessage: JSON.parse inside try/catch.  parse models JSON.parse plus
the tagging of the resulting object (none when JSON.parse throws); err is the
text of the caught exception.  On failure only a decode error is logged. -/
def wsOnMessage (parse : String → Option InboundMessage) (now : ℤ)
    (ts err raw : String) (s : StudioState) : StudioState :=
  match parse raw with
  | some msg => handleWebSocketMessage now ts msg s
  | none => addLogS ts s ("Message parsing failed: " ++ err) "error"

/-- A concrete studio state used to exercise the malformed-message path. -/
def sampleStudioState : StudioState :=
  ⟨true, true, 5, 42, true, ⟨10, 20, 30, 0, 0, 0⟩, ["a", "b"]⟩

/-! ## Capture-transmit loop and the in-flight gate
(RecordingStudio.tsx lines 1723-1763, 1678-1707, 1839-1876) -/

/-- The environment of one sendFrameToBackend call: whether wsRef.current is
non-null with readyState OPEN, whether videoRef.current is non-null, the
video element's readyState, whether tempCanvas.getContext succeeded, whether
drawImage/toDataURL ran without throwing, and whether ws.send ran without
throwing. -/
structure CycleInput where
  wsOpen : Bool
  videoPresent : Bool
  videoReadyState : ℕ
  ctxOk : Bool
  encodeOk : Bool
  sendOk : Bool
deriving DecidableEq

/-- Result of one sendFrameToBackend call: the in-flight gate afterwards,
whether a frame message was transmitted, and whether the catch handler reset
the gate. -/
structure SendResult where
  processing : Bool
  sent : Bool
  cleared : Bool
deriving DecidableEq

/-- sendFrameToBackend: bails out unless the socket is open, the video element
exists, the gate is clear and video.readyState === 4; returns silently when
getContext fails; on an exception while encoding nothing is sent and the catch
clears the gate; otherwise the gate is set to true and only then is the frame
message transmitted (a throwing ws.send transmits nothing and the catch clears
the gate). -/
def sendFrameToBackend (processing : Bool) (inp : CycleInput) : SendResult :=
  if inp.wsOpen = false ∨ inp.videoPresent = false ∨ processing = true then
    ⟨processing, false, false⟩
  else if inp.videoReadyState ≠ 4 then ⟨processing, false, false⟩
  else if inp.ctxOk = false then ⟨processing, false, false⟩
  else if inp.encodeOk = false then ⟨false, false, true⟩
  else if inp.sendOk then ⟨true, true, false⟩
  else ⟨false, false, true⟩

/-- The events that touch the in-flight gate: one capture cycle (a
sendFrameToBackend attempt), the img.onload completion of a processed_frame
reply (processingRef.current = false), and stopCamera (which also resets the
gate). -/
inductive StudioEvent where
  | cycle (inp : CycleInput)
  | processedReply
  | stopSession
deriving DecidableEq

/-- The gate together with a ghost counter: inFlight is the number of frame
sends issued since the last processed-frame reply or gate-clear. -/
structure GateState where
  processing : Bool
  inFlight : ℕ
deriving DecidableEq

/-- One step of the gate machine.  A capture cycle runs sendFrameToBackend; a
cleared gate (catch handler) resets the ghost counter, a transmitted frame
increments it; a reply or a session stop clears gate and counter. -/
def gateStep (s : GateState) : StudioEvent → GateState
  | .cycle inp =>
      let r := sendFrameToBackend s.processing inp
      { processing := r.processing,
        inFlight := if r.cleared then 0
          else s.inFlight + (if r.sent then 1 else 0) }
  | .processedReply => ⟨false, 0⟩
  | .stopSession => ⟨false, 0⟩

/-- Run a sequence of events from the initial state (gate clear, nothing in
flight). -/
def gateRun (evs : List StudioEvent) : GateState :=
  evs.foldl gateStep ⟨false, 0⟩

/-- The gate invariant: the ghost counter is 1 exactly while the gate is set. -/
def gateInv (s : GateState) : Prop :=
  s.inFlight = if s.processing then 1 else 0

instance (s : GateState) : Decidable (gateInv s) := by
  unfold gateInv; infer_instance

/-- A cycle environment in which everything succeeds. -/
def goodCycle : CycleInput := ⟨true, true, 4, true, true, true⟩

/-! ## Recording subsystem (RecordingStudio.tsx lines 23-95)

The mediaRecorder.onstop callback is a JS closure created inside
startRecording; the value of the state variable recordingTime it reads is the
one in scope when startRecording ran (React state updates never mutate the
consts of earlier renders), so the handle stores that captured value. -/

/-- One finalized catalog entry; timestampStr stands for the Date fields and
thumbnail for the object URL. -/
structure Recording where
  id : String
  name : String
  duration : ℕ
  size : String
  timestampStr : String
  thumbnail : String
deriving DecidableEq

/-- The live MediaRecorder with its onstop closure: capturedTime is the
recordingTime closed over when the callback was created in startRecording. -/
structure RecorderHandle where
  capturedTime : ℕ
deriving DecidableEq

/-- The recording subsystem state: isRecording, the recordingTime counter,
the catalog, recordedChunksRef (sizes of accumulated segments),
mediaRecorderRef and whether the one-second interval timer is running. -/
structure RecState where
  isRecording : Bool
  recordingTime : ℕ
  recordings : List Recording
  chunks : List ℕ
  recorder : Option RecorderHandle
  timerActive : Bool
deriving DecidableEq

/-- startRecording: does nothing without a canvas; otherwise clears the chunk
buffer, creates the MediaRecorder (whose onstop closure captures the current
recordingTime), starts it, sets isRecording, resets recordingTime and starts
the one-second interval. -/
def startRecording (canvasPresent : Bool) (s : RecState) : RecState :=
  if canvasPresent then
    { s with chunks := [], recorder := some ⟨s.recordingTime⟩,
             isRecording := true, recordingTime := 0, timerActive := true }
  else s

/-- ondataavailable: appends the segment when event.data.size > 0. -/
def recOnData (size : ℕ) (s : RecState) : RecState :=
  if 0 < size then { s with chunks := s.chunks ++ [size] } else s

/-- One tick of the recording interval: recordingTime increments while the
timer runs. -/
def recTick (s : RecState) : RecState :=
  if s.timerActive then { s with recordingTime := s.recordingTime + 1 } else s

/-- stopRecording: when a recorder exists and isRecording, stops it — the
onstop callback concatenates the chunks into one blob (size = sum of the
chunk sizes) and prepends the new catalog entry, whose duration is the
recordingTime captured by the closure — then clears isRecording and the
interval.  id, name, tsStr and thumb stand for the Date-derived strings and
the object URL. -/
def stopRecording (id name tsStr thumb : String) (s : RecState) : RecState :=
  match s.recorder with
  | some h =>
      if s.isRecording then
        let newRec : Recording :=
          { id := id, name := name, duration := h.capturedTime,
            size := formatFileSize s.chunks.sum,
            timestampStr := tsStr, thumbnail := thumb }
        { s with recordings := newRec :: s.recordings,
                 isRecording := false, timerActive := false }
      else s
  | none => s

/-- A freshly mounted recording subsystem whose catalog already holds rs. -/
def recInit (rs : List Recording) : RecState := ⟨false, 0, rs, [], none, false⟩

/-- The finalize scenario of the spec: start recording, accumulate three
one-second segments (each tick followed by a 1000-byte chunk), stop. -/
def recSceneFrom (rs : List Recording) : RecState :=
  stopRecording "id1" "Recording_A" "ts1" "blob:thumb1"
    (recOnData 1000 (recTick
      (recOnData 1000 (recTick
        (recOnData 1000 (recTick
          (startRecording true (recInit rs))))))))

/-! ## Helper lemmas -/

/-- Average of a constant field over a non-empty window. -/
lemma avgOf_const (f : PerformanceData → ℚ) (l : List PerformanceData) (c : ℚ)
    (h : ∀ d ∈ l, f d = c) (hl : l.length ≠ 0) : avgOf f l = c := by
  unfold avgOf
  have hmap : l.map f = List.replicate l.length c := by
    rw [List.eq_replicate_iff]
    refine ⟨by simp, ?_⟩
    intro x hx
    rcases List.mem_map.mp hx with ⟨d, hd, rfl⟩
    exact h d hd
  rw [hmap, List.sum_replicate, nsmul_eq_mul]
  have hl' : (l.length : ℚ) ≠ 0 := Nat.cast_ne_zero.mpr hl
  field_simp

/-- The integer logarithm used by formatFileSize is monotone. -/
lemma sizeExp_mono {a b : ℕ} (h : a ≤ b) : sizeExp a ≤ sizeExp b :=
  Nat.log_mono_right h

/-- The rounded mantissa never exceeds 1024.00 (printed over the unit below). -/
lemma sizeMantissa_le (a : ℕ) : sizeMantissa a ≤ 102400 := by
  have hpow : 0 < 1024 ^ sizeExp a := pow_pos (by norm_num) _
  have ha : a < 1024 ^ sizeExp a * 1024 := by
    have h : a < 1024 ^ (Nat.log 1024 a + 1) :=
      Nat.lt_pow_succ_log_self (by norm_num) a
    rw [pow_succ] at h
    exact h
  unfold sizeMantissa sizeMantissaAt
  have h2 : 0 < 2 * 1024 ^ sizeExp a := by positivity
  have hlt : (200 * a + 1024 ^ sizeExp a) / (2 * 1024 ^ sizeExp a) < 102401 := by
    rw [Nat.div_lt_iff_lt_mul h2]
    omega
  omega

/-- For a non-zero byte count the rounded mantissa is at least 1.00. -/
lemma hundred_le_sizeMantissa {b : ℕ} (hb : b ≠ 0) : 100 ≤ sizeMantissa b := by
  have hple : 1024 ^ sizeExp b ≤ b := Nat.pow_log_le_self 1024 hb
  have h2 : 0 < 2 * 1024 ^ sizeExp b := by positivity
  unfold sizeMantissa sizeMantissaAt
  rw [Nat.le_div_iff_mul_le h2]
  omega

/-- Monotonicity of the represented value, in hundredths of a byte. -/
lemma sizeRepr_mono {a b : ℕ} (hab : a ≤ b) :
    sizeMantissa a * 1024 ^ sizeExp a ≤ sizeMantissa b * 1024 ^ sizeExp b := by
  have hij := sizeExp_mono hab
  rcases eq_or_lt_of_le hij with heq | hlt
  · have hm : sizeMantissa a ≤ sizeMantissa b := by
      unfold sizeMantissa sizeMantissaAt
      rw [heq]
      exact Nat.div_le_div_right (by omega)
    calc sizeMantissa a * 1024 ^ sizeExp a
        ≤ sizeMantissa b * 1024 ^ sizeExp a := Nat.mul_le_mul_right _ hm
      _ = sizeMantissa b * 1024 ^ sizeExp b := by rw [heq]
  · have hb0 : b ≠ 0 := by
      intro h
      subst h
      have ha0 : a = 0 := Nat.le_zero.mp hab
      subst ha0
      exact absurd hlt (lt_irrefl _)
    calc sizeMantissa a * 1024 ^ sizeExp a
        ≤ 102400 * 1024 ^ sizeExp a := Nat.mul_le_mul_right _ (sizeMantissa_le a)
      _ = 100 * 1024 ^ (sizeExp a + 1) := by rw [pow_succ]; ring
      _ ≤ 100 * 1024 ^ sizeExp b :=
          Nat.mul_le_mul_left _ (Nat.pow_le_pow_right (by norm_num) hlt)
      _ ≤ sizeMantissa b * 1024 ^ sizeExp b :=
          Nat.mul_le_mul_right _ (hundred_le_sizeMantissa hb0)

/-- Concrete value of the integer logarithm at one mebibyte. -/
lemma sizeExp_1048576 : sizeExp 1048576 = 2 := by
  unfold sizeExp
  exact Nat.log_eq_of_pow_le_of_lt_pow (by norm_num) (by norm_num)

/-- formatFileSize at exactly one mebibyte: toFixed(2) yields "1.00" but
parseFloat turns it back into the number 1, which prints without decimals. -/
lemma formatFileSize_1048576 : formatFileSize 1048576 = "1 MB" := by
  unfold formatFileSize
  rw [if_neg (by norm_num), sizeExp_1048576]
  rfl

/-- Concrete value of the integer logarithm at 3000 bytes. -/
lemma sizeExp_3000 : sizeExp 3000 = 1 := by
  unfold sizeExp
  exact Nat.log_eq_of_pow_le_of_lt_pow (by norm_num) (by norm_num)

/-- formatFileSize of the 3000-byte blob of the finalize scenario. -/
lemma formatFileSize_3000 : formatFileSize 3000 = "2.93 KB" := by
  unfold formatFileSize
  rw [if_neg (by norm_num), sizeExp_3000]
  rfl

/-! ## Claim theorems -/

/-- Claim C10: on an empty telemetry window getPerformanceScore returns 0 (the
early return fires before any division by the window length) and
getPerformanceGrade maps 0 to grade D. -/
theorem score_empty_window :
    getPerformanceScore [] = 0 ∧
    (getPerformanceGrade (getPerformanceScore [])).grade = "D" := by
  decide

/-- Claim C6 counterexample: formatFileSize(1048576) does not return
"1.00 MB" — parseFloat strips the trailing ".00", so the code returns
"1 MB". -/
theorem size_format_cex :
    formatFileSize 1048576 = "1 MB" ∧ formatFileSize 1048576 ≠ "1.00 MB" := by
  refine ⟨formatFileSize_1048576, ?_⟩
  rw [formatFileSize_1048576]
  decide

/-- Claim C6 (amended): formatFileSize(0) returns "0 Bytes" and
formatFileSize(1048576) returns "1 MB" — the MB value is rounded at two
decimals but parseFloat drops the trailing zeros before display. -/
theorem size_format_values :
    formatFileSize 0 = "0 Bytes" ∧ formatFileSize 1048576 = "1 MB" :=
  ⟨rfl, formatFileSize_1048576⟩

/-- Claim C7: formatFileSize is monotonic in byte count — the represented
byte value (numeric prefix times the base-1024 unit scale) never decreases
as the byte count grows. -/
theorem formatFileSize_monotone (a b : ℕ) (hab : a ≤ b) :
    sizeValue a ≤ sizeValue b := by
  have key := sizeRepr_mono hab
  have hcast : ∀ n : ℕ,
      sizeValue n = ((sizeMantissa n * 1024 ^ sizeExp n : ℕ) : ℚ) / 100 := by
    intro n
    unfold sizeValue
    push_cast
    ring
  rw [hcast a, hcast b]
  have h : ((sizeMantissa a * 1024 ^ sizeExp a : ℕ) : ℚ) ≤
      ((sizeMantissa b * 1024 ^ sizeExp b : ℕ) : ℚ) := by exact_mod_cast key
  linarith

/-- Witness for C7 at the concrete pair 5 ≤ 2048. -/
theorem formatFileSize_monotone_witness :
    5 ≤ 2048 ∧ sizeValue 5 ≤ sizeValue 2048 :=
  ⟨by norm_num, formatFileSize_monotone 5 2048 (by norm_num)⟩

/-- Claim C2 (code bug): the onclose handler branches on the streaming flag
captured by its closure, not the session's flag at close time.  In the
start-then-drop trace the session is streaming (live flag true) when the
close fires yet no reconnect is scheduled; in the stop-after-reconnect trace
streaming has been stopped (live flag false) yet one 3000 ms reconnect —
whose timer callback increments the reconnect counter by one — is scheduled.
Both halves of the claim fail on these reachable traces. -/
theorem reconnect_stale_streaming_flag :
    (startThenDropScene.liveStreaming = true ∧
      (wsOnClose startThenDropScene.socket csLive).scheduledDelays = []) ∧
    (stopAfterReconnectScene.liveStreaming = false ∧
      (wsOnClose stopAfterReconnectScene.socket csLive).scheduledDelays
        = [3000] ∧
      (reconnectTimerFire
          (wsOnClose stopAfterReconnectScene.socket csLive).state
        ).reconnectCount = csLive.reconnectCount + 1) :=
  ⟨⟨rfl, rfl⟩, rfl, rfl, rfl⟩

/-- Claim C3 counterexample: a socket in readyState CONNECTING satisfies the
claim's "already connected or already connecting" guard, yet connectWebSocket
constructs a new transport object — the source guard only tests
readyState === OPEN. -/
theorem connect_noop_cex :
    (some WSReadyState.CONNECTING = some WSReadyState.OPEN ∨
      some WSReadyState.CONNECTING = some WSReadyState.CONNECTING) ∧
    (connectWebSocket (some WSReadyState.CONNECTING) csConnecting).created
      = true :=
  ⟨Or.inr rfl, rfl⟩

/-- Claim C3 (amended): connectWebSocket is a no-op — no new transport, no
connection-state change — exactly when the current socket's readyState is
OPEN; a merely connecting socket does not suppress the call. -/
theorem connect_noop_when_open (cs : ConnectionState) :
    (connectWebSocket (some WSReadyState.OPEN) cs).created = false ∧
    (connectWebSocket (some WSReadyState.OPEN) cs).state = cs :=
  ⟨rfl, rfl⟩

/-- Claim C4: a 10-sample window of fps 30, latency 0, cpu 0 scores exactly
100 and grades "A+". -/
theorem score_perfect_window (data : List PerformanceData)
    (hlen : data.length = 10)
    (hfps : ∀ d ∈ data, d.fps = 30)
    (hlat : ∀ d ∈ data, d.latency = 0)
    (hcpu : ∀ d ∈ data, d.cpuUsage = 0) :
    getPerformanceScore data = 100 ∧
    (getPerformanceGrade (getPerformanceScore data)).grade = "A+" := by
  have hslice : sliceLast 10 data = data := by
    unfold sliceLast
    rw [hlen]
    simp
  have h1 : avgOf PerformanceData.fps data = 30 :=
    avgOf_const _ _ _ hfps (by omega)
  have h2 : avgOf PerformanceData.latency data = 0 :=
    avgOf_const _ _ _ hlat (by omega)
  have h3 : avgOf PerformanceData.cpuUsage data = 0 :=
    avgOf_const _ _ _ hcpu (by omega)
  have hs : getPerformanceScore data = 100 := by
    unfold getPerformanceScore
    rw [if_neg (by omega)]
    unfold jsRound fpsScore latencyScore cpuScore stabilityScore
    rw [hslice, h1, h2, h3]
    norm_num [Int.floor_eq_iff]
  refine ⟨hs, ?_⟩
  rw [hs]
  decide

/-- Witness for C4: ten copies of the ideal sample. -/
theorem score_perfect_window_witness :
    (List.replicate 10 perfectSample).length = 10 ∧
    getPerformanceScore (List.replicate 10 perfectSample) = 100 ∧
    (getPerformanceGrade
      (getPerformanceScore (List.replicate 10 perfectSample))).grade = "A+" := by
  have h := score_perfect_window (List.replicate 10 perfectSample)
    (by simp)
    (by intro d hd; rw [List.eq_of_mem_replicate hd]; rfl)
    (by intro d hd; rw [List.eq_of_mem_replicate hd]; rfl)
    (by intro d hd; rw [List.eq_of_mem_replicate hd]; rfl)
  exact ⟨by simp, h.1, h.2⟩

/-- Claim C5 counterexample: on a window holding one sample with latency
-10000 the latency sub-score is 2525 (outside [0, 25]) and the composite
score is 2575 (outside [0, 100]); the code never validates its inputs. -/
theorem score_bounds_cex :
    ¬ (latencyScore (sliceLast 10 [badSample]) ≤ 25) ∧
    ¬ (getPerformanceScore [badSample] ≤ 100) := by
  have hsl : sliceLast 10 [badSample] = [badSample] := rfl
  have havg : avgOf PerformanceData.latency [badSample] = -10000 := by
    unfold avgOf
    simp [badSample]
  have havf : avgOf PerformanceData.fps [badSample] = 0 := by
    unfold avgOf
    simp [badSample]
  have havc : avgOf PerformanceData.cpuUsage [badSample] = 0 := by
    unfold avgOf
    simp [badSample]
  have hlat : latencyScore (sliceLast 10 [badSample]) = 2525 := by
    rw [hsl]
    unfold latencyScore
    rw [havg, max_eq_right (by norm_num : (0:ℚ) ≤ 1 - -10000 / 100)]
    norm_num
  have hfs : fpsScore (sliceLast 10 [badSample]) = 0 := by
    rw [hsl]
    unfold fpsScore
    rw [havf, min_eq_left (by norm_num : (0:ℚ) / 30 ≤ 1)]
    norm_num
  have hcs : cpuScore (sliceLast 10 [badSample]) = 25 := by
    rw [hsl]
    unfold cpuScore
    rw [havc, max_eq_right (by norm_num : (0:ℚ) ≤ 1 - 0 / 100)]
    norm_num
  have hscore : getPerformanceScore [badSample] = 2575 := by
    unfold getPerformanceScore
    rw [if_neg (by norm_num)]
    unfold jsRound
    rw [hfs, hlat, hcs]
    unfold stabilityScore
    norm_num [Int.floor_eq_iff]
  constructor
  · rw [hlat]
    norm_num
  · rw [hscore]
    norm_num

/-- Claim C5 (amended): for every non-empty telemetry window whose samples
all have nonnegative fps, latency and cpuUsage, each of the four sub-scores
lies in [0, 25] and the composite score lies in [0, 100]. -/
theorem score_bounds (data : List PerformanceData) (hne : data ≠ [])
    (h0 : ∀ d ∈ data, 0 ≤ d.fps ∧ 0 ≤ d.latency ∧ 0 ≤ d.cpuUsage) :
    (0 ≤ fpsScore (sliceLast 10 data) ∧ fpsScore (sliceLast 10 data) ≤ 25) ∧
    (0 ≤ latencyScore (sliceLast 10 data) ∧
      latencyScore (sliceLast 10 data) ≤ 25) ∧
    (0 ≤ cpuScore (sliceLast 10 data) ∧ cpuScore (sliceLast 10 data) ≤ 25) ∧
    (0 ≤ stabilityScore ∧ stabilityScore ≤ 25) ∧
    (0 ≤ getPerformanceScore data ∧ getPerformanceScore data ≤ 100) := by
  have hsub : ∀ d ∈ sliceLast 10 data, d ∈ data := by
    intro d hd
    exact List.drop_subset _ _ hd
  have havg : ∀ (f : PerformanceData → ℚ), (∀ d ∈ data, 0 ≤ f d) →
      0 ≤ avgOf f (sliceLast 10 data) := by
    intro f hf
    unfold avgOf
    apply div_nonneg
    · apply List.sum_nonneg
      intro x hx
      rcases List.mem_map.mp hx with ⟨d, hd, rfl⟩
      exact hf d (hsub d hd)
    · positivity
  have hfps0 : 0 ≤ avgOf PerformanceData.fps (sliceLast 10 data) :=
    havg _ (fun d hd => (h0 d hd).1)
  have hlat0 : 0 ≤ avgOf PerformanceData.latency (sliceLast 10 data) :=
    havg _ (fun d hd => (h0 d hd).2.1)
  have hcpu0 : 0 ≤ avgOf PerformanceData.cpuUsage (sliceLast 10 data) :=
    havg _ (fun d hd => (h0 d hd).2.2)
  have hb1 : 0 ≤ fpsScore (sliceLast 10 data) ∧
      fpsScore (sliceLast 10 data) ≤ 25 := by
    unfold fpsScore
    constructor
    · apply mul_nonneg _ (by norm_num)
      exact le_min (div_nonneg hfps0 (by norm_num)) zero_le_one
    · have h := min_le_right
        (avgOf PerformanceData.fps (sliceLast 10 data) / 30) 1
      nlinarith
  have hb2 : 0 ≤ latencyScore (sliceLast 10 data) ∧
      latencyScore (sliceLast 10 data) ≤ 25 := by
    unfold latencyScore
    constructor
    · exact mul_nonneg (le_max_left 0 _) (by norm_num)
    · have h : max 0 (1 - avgOf PerformanceData.latency (sliceLast 10 data)
          / 100) ≤ 1 := by
        apply max_le (by norm_num)
        have : 0 ≤ avgOf PerformanceData.latency (sliceLast 10 data) / 100 :=
          div_nonneg hlat0 (by norm_num)
        linarith
      nlinarith
  have hb3 : 0 ≤ cpuScore (sliceLast 10 data) ∧
      cpuScore (sliceLast 10 data) ≤ 25 := by
    unfold cpuScore
    constructor
    · exact mul_nonneg (le_max_left 0 _) (by norm_num)
    · have h : max 0 (1 - avgOf PerformanceData.cpuUsage (sliceLast 10 data)
          / 100) ≤ 1 := by
        apply max_le (by norm_num)
        have : 0 ≤ avgOf PerformanceData.cpuUsage (sliceLast 10 data) / 100 :=
          div_nonneg hcpu0 (by norm_num)
        linarith
      nlinarith
  have hlen0 : ¬ (data.length = 0) := fun h => hne (List.length_eq_zero.mp h)
  refine ⟨hb1, hb2, hb3, ⟨by norm_num [stabilityScore],
    by norm_num [stabilityScore]⟩, ?_, ?_⟩
  · unfold getPerformanceScore
    rw [if_neg hlen0]
    unfold jsRound
    apply Int.le_floor.mpr
    push_cast
    have hst : (0 : ℚ) ≤ stabilityScore := by norm_num [stabilityScore]
    linarith [hb1.1, hb2.1, hb3.1]
  · unfold getPerformanceScore
    rw [if_neg hlen0]
    unfold jsRound
    have hfl : ⌊fpsScore (sliceLast 10 data) +
        latencyScore (sliceLast 10 data) + cpuScore (sliceLast 10 data) +
        stabilityScore + 1 / 2⌋ < 101 := by
      apply Int.floor_lt.mpr
      push_cast
      have hst : stabilityScore ≤ 25 := by norm_num [stabilityScore]
      linarith [hb1.2, hb2.2, hb3.2]
    omega

/-- Witness for C5 at the single ideal sample. -/
theorem score_bounds_witness :
    (([perfectSample] : List PerformanceData) ≠ []) ∧
    ((0 ≤ fpsScore (sliceLast 10 [perfectSample]) ∧
        fpsScore (sliceLast 10 [perfectSample]) ≤ 25) ∧
      (0 ≤ latencyScore (sliceLast 10 [perfectSample]) ∧
        latencyScore (sliceLast 10 [perfectSample]) ≤ 25) ∧
      (0 ≤ cpuScore (sliceLast 10 [perfectSample]) ∧
        cpuScore (sliceLast 10 [perfectSample]) ≤ 25) ∧
      (0 ≤ stabilityScore ∧ stabilityScore ≤ 25) ∧
      (0 ≤ getPerformanceScore [perfectSample] ∧
        getPerformanceScore [perfectSample] ≤ 100)) :=
  ⟨by simp, score_bounds [perfectSample] (by simp)
    (by intro d hd; rw [List.mem_singleton.mp hd]
        exact ⟨by norm_num [perfectSample], by norm_num [perfectSample],
          by norm_num [perfectSample]⟩)⟩

/-- The gate invariant is preserved by every event. -/
lemma gateStep_inv (s : GateState) (e : StudioEvent) (h : gateInv s) :
    gateInv (gateStep s e) := by
  cases e with
  | processedReply => simp [gateStep, gateInv]
  | stopSession => simp [gateStep, gateInv]
  | cycle inp =>
      rcases s with ⟨p, n⟩
      rcases inp with ⟨w, v, vr, c, en, sd⟩
      unfold gateInv at h ⊢
      unfold gateStep sendFrameToBackend
      by_cases hvr : vr = 4 <;>
        rcases p <;> rcases w <;> rcases v <;> rcases c <;> rcases en <;>
        rcases sd <;> simp_all

/-- Claim C1: at most one outbound frame is ever in flight — over every event
sequence the count of sends since the last reply or gate-clear never exceeds
1; a set gate makes sendFrameToBackend skip the send; and a transmitted frame
leaves the gate set. -/
theorem single_in_flight :
    (∀ evs : List StudioEvent, (gateRun evs).inFlight ≤ 1) ∧
    (∀ inp : CycleInput, (sendFrameToBackend true inp).sent = false) ∧
    (∀ inp : CycleInput, (sendFrameToBackend false inp).sent = true →
      (sendFrameToBackend false inp).processing = true) := by
  refine ⟨?_, ?_, ?_⟩
  · intro evs
    have hrun : ∀ (l : List StudioEvent) (s : GateState), gateInv s →
        gateInv (l.foldl gateStep s) := by
      intro l
      induction l with
      | nil => intro s hs; exact hs
      | cons e tl ih => intro s hs; exact ih _ (gateStep_inv s e hs)
    have hinv := hrun evs ⟨false, 0⟩ (by simp [gateInv])
    unfold gateRun
    unfold gateInv at hinv
    rw [hinv]
    split <;> omega
  · intro inp
    simp [sendFrameToBackend]
  · intro inp h
    unfold sendFrameToBackend at h ⊢
    split_ifs at h ⊢ <;> simp_all

/-- Witness for C1 at a fully successful cycle environment. -/
theorem single_in_flight_witness :
    (sendFrameToBackend false goodCycle).sent = true ∧
    (sendFrameToBackend false goodCycle).processing = true :=
  ⟨rfl, single_in_flight.2.2 goodCycle rfl⟩

/-- Claim C8: an unparsable inbound payload leaves the streaming flag, the
in-flight gate and the processed-frame counter untouched; the handler returns
normally (it is a total function) and its only effect is the logged decode
error. -/
theorem malformed_message_inert (parse : String → Option InboundMessage)
    (now : ℤ) (ts err raw : String) (s : StudioState)
    (h : parse raw = none) :
    (wsOnMessage parse now ts err raw s).isStreaming = s.isStreaming ∧
    (wsOnMessage parse now ts err raw s).processing = s.processing ∧
    (wsOnMessage parse now ts err raw s).processedFrames = s.processedFrames ∧
    (wsOnMessage parse now ts err raw s).logs =
      addLog ts s.logs ("Message parsing failed: " ++ err) "error" := by
  unfold wsOnMessage
  rw [h]
  exact ⟨rfl, rfl, rfl, rfl⟩

/-- Witness for C8: a parser that always fails, on a concrete state. -/
theorem malformed_message_inert_witness :
    ((fun _ : String => (none : Option InboundMessage)) "x" = none) ∧
    ((wsOnMessage (fun _ => none) 0 "t" "boom" "x"
        sampleStudioState).isStreaming = sampleStudioState.isStreaming ∧
      (wsOnMessage (fun _ => none) 0 "t" "boom" "x"
        sampleStudioState).processing = sampleStudioState.processing ∧
      (wsOnMessage (fun _ => none) 0 "t" "boom" "x"
        sampleStudioState).processedFrames = sampleStudioState.processedFrames ∧
      (wsOnMessage (fun _ => none) 0 "t" "boom" "x" sampleStudioState).logs =
        addLog "t" sampleStudioState.logs
          ("Message parsing failed: " ++ "boom") "error") :=
  ⟨rfl, malformed_message_inert (fun _ => none) 0 "t" "boom" "x"
    sampleStudioState rfl⟩

/-- Claim C9 (code bug): running the finalize scenario — start, three ticks
each delivering a 1000-byte segment, stop — prepends exactly one entry to the
catalog and leaves the old entries unchanged, with a non-zero size string,
but the entry's duration is 0, not 3: the onstop closure captured
recordingTime before it was reset, while the interval's three increments only
reached the state the closure never re-reads. -/
theorem recording_stale_duration (rs : List Recording) :
    (recSceneFrom rs).recordings =
      ⟨"id1", "Recording_A", 0, "2.93 KB", "ts1", "blob:thumb1"⟩ :: rs ∧
    (recSceneFrom rs).recordingTime = 3 ∧
    ("2.93 KB" : String) ≠ "0 Bytes" := by
  have h : recSceneFrom rs = ⟨false, 3,
      ⟨"id1", "Recording_A", 0, formatFileSize 3000, "ts1", "blob:thumb1"⟩
        :: rs,
      [1000, 1000, 1000], some ⟨0⟩, false⟩ := rfl
  rw [h, formatFileSize_3000]
  exact ⟨rfl, rfl, by decide⟩

end RTBVS
